import Mathlib

/-!
Verification development for the resilience/coordination core of the NEWPOIZON
repository: the circuit breaker (`src/circuit_breaker.py`), the Redis
sliding-window rate limiter (`src/redis_rate_limiter.py`) and the three-tier
unified cache (`src/unified_cache.py`).

Times are modelled as rationals (Python floats), Python integers as `Int`.
The wrapped function passed to `CircuitBreaker.call` is modelled by the
outcome of its single invocation (a value, or a raised exception together
with the fact of whether it is an instance of the breaker's configured
`expected_exception` type).
-/

namespace NewPoizon

/-! ## Circuit breaker (`src/circuit_breaker.py`) -/

/-- `CircuitState` enum (lines 23-27). -/
inductive CircuitState where
  | CLOSED
  | OPEN
  | HALF_OPEN
deriving DecidableEq, Repr

/-- The `self.stats` dictionary (lines 70-76).  A `state_changes` record is
modelled by its `(from, to)` pair; the wall-clock strings attached to each
record carry no logic. -/
structure CBStats where
  total_requests : Int
  successful_requests : Int
  failed_requests : Int
  rejected_requests : Int
  state_changes : List (CircuitState × CircuitState)
deriving DecidableEq, Repr

/-- The mutable state plus configuration of one `CircuitBreaker` instance
(lines 42-76).  `expected_exception` is not carried here: whether a raised
exception is an instance of it is recorded on the exception itself (see
`FnResult.raises`). -/
structure CircuitBreaker where
  failure_threshold : Int
  recovery_timeout : ℚ
  name : String
  failure_count : Int
  last_failure_time : Option ℚ
  state : CircuitState
  stats : CBStats
deriving DecidableEq, Repr

/-- `CircuitBreaker.__init__` (lines 42-76). -/
def CircuitBreaker.mk0 (failure_threshold : Int) (recovery_timeout : ℚ)
    (name : String) : CircuitBreaker :=
  { failure_threshold := failure_threshold
    recovery_timeout := recovery_timeout
    name := name
    failure_count := 0
    last_failure_time := none
    state := .CLOSED
    stats := ⟨0, 0, 0, 0, []⟩ }

/-- `CircuitBreaker._should_attempt_reset` (lines 127-132). -/
def CircuitBreaker.shouldAttemptReset (cb : CircuitBreaker) (now : ℚ) : Bool :=
  match cb.last_failure_time with
  | none => true
  | some t => decide (now - t ≥ cb.recovery_timeout)

/-- `CircuitBreaker._transition_to_half_open` (lines 134-142). -/
def CircuitBreaker.transitionToHalfOpen (cb : CircuitBreaker) : CircuitBreaker :=
  { cb with
    state := .HALF_OPEN
    stats := { cb.stats with
      state_changes := cb.stats.state_changes ++ [(.OPEN, .HALF_OPEN)] } }

/-- `CircuitBreaker._on_success` (lines 144-158). -/
def CircuitBreaker.onSuccess (cb : CircuitBreaker) : CircuitBreaker :=
  if cb.state = .HALF_OPEN then
    { cb with
      state := .CLOSED
      failure_count := 0
      stats := { cb.stats with
        state_changes := cb.stats.state_changes ++ [(.HALF_OPEN, .CLOSED)] } }
  else
    { cb with failure_count := max 0 (cb.failure_count - 1) }

/-- `CircuitBreaker._on_failure` (lines 160-183); `now` is the value
`time.time()` takes on line 163. -/
def CircuitBreaker.onFailure (cb : CircuitBreaker) (now : ℚ) : CircuitBreaker :=
  let cb' := { cb with
    failure_count := cb.failure_count + 1
    last_failure_time := some now }
  if cb'.state = .HALF_OPEN then
    { cb' with
      state := .OPEN
      stats := { cb'.stats with
        state_changes := cb'.stats.state_changes ++ [(.HALF_OPEN, .OPEN)] } }
  else if cb'.failure_count ≥ cb'.failure_threshold then
    { cb' with
      state := .OPEN
      stats := { cb'.stats with
        state_changes := cb'.stats.state_changes ++ [(.CLOSED, .OPEN)] } }
  else cb'

/-- Outcome of invoking the wrapped function once: either a value, or a
raised exception `e` together with whether `e` is an instance of the
breaker's configured `expected_exception` type (the `except
self.expected_exception` filter on line 119). -/
inductive FnResult (α ε : Type) where
  | success (v : α)
  | raises (e : ε) (isExpected : Bool)
deriving DecidableEq, Repr

/-- What `CircuitBreaker.call` does towards its caller: return a value,
raise `CircuitBreakerError` (line 106), or let the wrapped function's own
exception propagate (line 125 / an unmatched exception). -/
inductive CallResult (α ε : Type) where
  | ok (v : α)
  | circuitBreakerError
  | reraised (e : ε)
deriving DecidableEq, Repr

/-- Result of one `CircuitBreaker.call`: what the caller observes, whether
the wrapped function was actually invoked (line 110 reached), and the
breaker's state afterwards. -/
structure CallOutcome (α ε : Type) where
  result : CallResult α ε
  invoked : Bool
  breaker : CircuitBreaker
deriving DecidableEq, Repr

/-- The body of `CircuitBreaker.call` from line 109 on: invoke the function
and do the success/failure bookkeeping (lines 109-125).  An exception that
is not an instance of `expected_exception` propagates with no bookkeeping
at all. -/
def CircuitBreaker.runFn {α ε : Type} (cb : CircuitBreaker) (now : ℚ)
    (fn : FnResult α ε) : CallOutcome α ε :=
  match fn with
  | .success v =>
      { result := .ok v
        invoked := true
        breaker :=
          ({ cb with stats := { cb.stats with
              successful_requests := cb.stats.successful_requests + 1 } }).onSuccess }
  | .raises e true =>
      { result := .reraised e
        invoked := true
        breaker :=
          ({ cb with stats := { cb.stats with
              failed_requests := cb.stats.failed_requests + 1 } }).onFailure now }
  | .raises e false =>
      { result := .reraised e
        invoked := true
        breaker := cb }

/-- `CircuitBreaker.call` (lines 80-125), with both `time.time()` readings
of the call collapsed to the single instant `now`.  `total_requests` is
incremented on every call (line 95); the branch conditions read only
`state`, `last_failure_time` and `recovery_timeout`, which that increment
does not touch, so they are taken on `cb` directly. -/
def CircuitBreaker.call {α ε : Type} (cb : CircuitBreaker) (now : ℚ)
    (fn : FnResult α ε) : CallOutcome α ε :=
  if cb.state = .OPEN then
    if cb.shouldAttemptReset now then
      ({ cb with stats := { cb.stats with
          total_requests := cb.stats.total_requests + 1 } }).transitionToHalfOpen.runFn
        now fn
    else
      { result := .circuitBreakerError
        invoked := false
        breaker := { cb with stats := { cb.stats with
            total_requests := cb.stats.total_requests + 1
            rejected_requests := cb.stats.rejected_requests + 1 } } }
  else
    ({ cb with stats := { cb.stats with
        total_requests := cb.stats.total_requests + 1 } }).runFn now fn

/-- `CircuitBreaker.reset` (lines 185-191). -/
def CircuitBreaker.reset (cb : CircuitBreaker) : CircuitBreaker :=
  { cb with
    state := .CLOSED
    failure_count := 0
    last_failure_time := none }

/-- A wrapped call that raises an expected exception (used to drive failure
sequences). -/
def failFn : FnResult Unit Unit := .raises () true

/-- `k` consecutive calls whose wrapped function raises an expected
exception, the `i`-th made at time `τ i`. -/
def runFails (cb : CircuitBreaker) (τ : ℕ → ℚ) : ℕ → CircuitBreaker
  | 0 => cb
  | k + 1 => ((runFails cb τ k).call (τ (k + 1)) failFn).breaker

/-! ## Rate limiter (`src/redis_rate_limiter.py`) -/

/-- Configuration of `RedisRateLimiter` (lines 40-62); the redis connection
itself is modelled separately by `RedisConn`. -/
structure RedisRateLimiter where
  key_prefix : String
  max_requests : Int
  window_seconds : ℚ
deriving DecidableEq, Repr

/-- `RedisRateLimiter._get_key` (lines 70-72). -/
def RedisRateLimiter.getKey (L : RedisRateLimiter) (identifier : String) : String :=
  L.key_prefix ++ ":" ++ identifier

/-- One Redis sorted-set key as the limiter uses it: its members with their
scores (in insertion order) together with the key's currently set expiry in
seconds (`EXPIRE`). -/
structure ZSetKey where
  entries : List (String × ℚ)
  expirySeconds : Option Int
deriving DecidableEq, Repr

/-- Redis `ZADD key {member: score}`: updates the member's score if the
member is present, otherwise appends it. -/
def zadd (entries : List (String × ℚ)) (member : String) (score : ℚ) :
    List (String × ℚ) :=
  if entries.any (fun e => e.1 == member) then
    entries.map (fun e => if e.1 == member then (member, score) else e)
  else entries ++ [(member, score)]

/-- Redis `ZREMRANGEBYSCORE key 0 windowStart` as applied on line 110: the
members kept are those whose score is not in `[0, now - window_seconds]`. -/
def RedisRateLimiter.pruneWindow (L : RedisRateLimiter)
    (entries : List (String × ℚ)) (now : ℚ) : List (String × ℚ) :=
  entries.filter fun e =>
    !(decide (0 ≤ e.2) && decide (e.2 ≤ now - L.window_seconds))

/-- The shared store as seen from one `acquire` attempt: either reachable
with a given sorted-set state, or erroring (any `redis.RedisError`). -/
inductive RedisConn where
  | up (s : ZSetKey)
  | down
deriving DecidableEq, Repr

/-- One iteration of the polling loop of `RedisRateLimiter.acquire`
(lines 101-158).  `now` is the iteration's `current_time`, `start_time` the
value captured on line 99, `request_id` the fresh member id built on
line 122.  Result `some b` means `acquire` returns `b` on this iteration;
`none` means the code sleeps (lines 143-153) and retries.  A store error is
caught on line 155 and turned into an immediate `True` (fail-open,
line 158).  `Int.floor` models Python's `int()` truncation, which agrees
with it on the nonnegative `window_seconds * 2`. -/
def RedisRateLimiter.acquireAttempt (L : RedisRateLimiter) (conn : RedisConn)
    (now start_time : ℚ) (request_id : String) (blocking : Bool)
    (timeout : ℚ) : Option Bool × RedisConn :=
  match conn with
  | .down => (some true, .down)
  | .up s =>
    let kept := L.pruneWindow s.entries now
    let current_count : Int := kept.length
    if current_count < L.max_requests then
      (some true, .up
        { entries := zadd kept request_id now
          expirySeconds := some (Int.floor (L.window_seconds * 2)) })
    else if !blocking then
      (some false, .up { s with entries := kept })
    else if now - start_time ≥ timeout then
      (some false, .up { s with entries := kept })
    else
      (none, .up { s with entries := kept })

/-! ## Unified cache (`src/unified_cache.py`)

The three backing stores are modelled as association lists keyed by the
cache key (for the file tier, by the sanitized file name).  The remote tier
is modelled in its healthy state: `enable_redis` stands for the source's
`self.enable_redis and self.redis_client` (the construction-time ping on
lines 76-93 folded in), and the `try/except` guards around remote and file
operations do not fire.  Redis-native key expiry is not modelled; a remote
entry carries the TTL passed to `SETEX`. -/

/-- Per-instance tier switches plus the fixed memory-tier ceiling
`self.memory_ttl` (line 72). -/
structure UnifiedCache where
  enable_memory : Bool
  enable_redis : Bool
  enable_file : Bool
  memory_ttl : Int
deriving DecidableEq, Repr

/-- `UnifiedCache.__init__` (lines 44-110): tier flags as requested (and, for
the remote tier, reachable), `memory_ttl` hard-coded to 300 seconds. -/
def UnifiedCache.init (em er ef : Bool) : UnifiedCache :=
  { enable_memory := em
    enable_redis := er
    enable_file := ef
    memory_ttl := 300 }

/-- One file-tier entry: the dictionary pickled on lines 261-266 (the
`created` iso string carries no logic). -/
structure FileEntry (V : Type) where
  data : V
  timestamp : ℚ
  ttl : Int
deriving DecidableEq, Repr

/-- One remote-tier entry: the pickled value together with the TTL passed to
`SETEX`. -/
structure RedisEntry (V : Type) where
  value : V
  ttlSeconds : Int
deriving DecidableEq, Repr

/-- The `self.stats` counters (lines 99-108) that the modelled operations
touch. -/
structure CacheStats where
  memory_hits : Int
  redis_hits : Int
  file_hits : Int
  misses : Int
  sets : Int
deriving DecidableEq, Repr

/-- The mutable backing stores of one cache instance.  A memory entry is the
`(data, timestamp, ttl)` triple of line 241. -/
structure CacheState (V : Type) where
  memory_cache : List (String × (V × ℚ × Int))
  redisStore : List (String × RedisEntry V)
  fileStore : List (String × FileEntry V)
  stats : CacheStats
deriving DecidableEq, Repr

/-- Store `k ↦ v` in an association list (dictionary/redis overwrite
semantics). -/
def astore {β : Type} (l : List (String × β)) (k : String) (v : β) :
    List (String × β) :=
  (k, v) :: l.filter (fun e => e.1 != k)

/-- Remove `k` from an association list. -/
def aerase {β : Type} (l : List (String × β)) (k : String) :
    List (String × β) :=
  l.filter (fun e => e.1 != k)

/-- `UnifiedCache._make_key` (lines 112-114). -/
def make_key (key ns : String) : String :=
  if ns ≠ "" then ns ++ ":" ++ key else key

/-- The character class `[A-Za-z0-9._-]` of line 122. -/
def isSafeChar (c : Char) : Bool :=
  c.isAlpha || c.isDigit || c == '.' || c == '_' || c == '-'

/-- `re.sub(r"[^A-Za-z0-9._-]+", "_", s)`: each maximal run of unsafe
characters collapses to a single underscore.  The flag says whether we are
inside such a run. -/
def collapseUnsafe : Bool → List Char → List Char
  | _, [] => []
  | inRun, c :: rest =>
    if isSafeChar c then c :: collapseUnsafe false rest
    else if inRun then collapseUnsafe true rest
    else '_' :: collapseUnsafe true rest

/-- `full_key.replace(":", "_")` of line 121: a single-character pattern
with a single-character replacement is a character map. -/
def replaceColon (s : String) : String :=
  String.mk (s.toList.map fun c => if c == ':' then '_' else c)

/-- `UnifiedCache._file_path` (lines 116-123), as the file name within
`cache_dir`. -/
def filePath (full_key : String) : String :=
  "cache_" ++ String.mk (collapseUnsafe false (replaceColon full_key).toList)
    ++ ".pkl"

/-- `UnifiedCache.set` (lines 212-271). -/
def UnifiedCache.set {V : Type} (c : UnifiedCache) (st : CacheState V)
    (now : ℚ) (key : String) (value : V) (ttl : Int) (ns : String)
    (skip_memory skip_redis skip_file : Bool) : CacheState V :=
  let full_key := make_key key ns
  let st1 := { st with stats := { st.stats with sets := st.stats.sets + 1 } }
  let st2 :=
    if c.enable_memory && !skip_memory then
      { st1 with
        memory_cache :=
          astore st1.memory_cache full_key (value, now, min ttl c.memory_ttl) }
    else st1
  let st3 :=
    if c.enable_redis && !skip_redis then
      { st2 with
        redisStore := astore st2.redisStore full_key ⟨value, min ttl 86400⟩ }
    else st2
  if c.enable_file && !skip_file then
    { st3 with
      fileStore := astore st3.fileStore (filePath full_key) ⟨value, now, ttl⟩ }
  else st3

/-- The cache-miss tail of `UnifiedCache.get` (lines 207-210); the caller of
`get` receives its `default` argument, modelled as `none`. -/
def cacheMiss {V : Type} (st : CacheState V) : Option V × CacheState V :=
  (none, { st with stats := { st.stats with misses := st.stats.misses + 1 } })

/-- The file-tier probe of `UnifiedCache.get` (lines 169-205): on a live hit
the value is promoted into the memory tier at `memory_ttl` and into the
remote tier at `min ttl 86400` (lines 185-197); an expired entry is
unlinked (line 202). -/
def UnifiedCache.getL3 {V : Type} (c : UnifiedCache) (st : CacheState V)
    (now : ℚ) (full_key : String) : Option V × CacheState V :=
  if c.enable_file then
    match st.fileStore.lookup (filePath full_key) with
    | some e =>
      if now - e.timestamp < (e.ttl : ℚ) then
        let stA := { st with stats := { st.stats with
            file_hits := st.stats.file_hits + 1 } }
        let stB :=
          if c.enable_memory then
            { stA with
              memory_cache :=
                astore stA.memory_cache full_key (e.data, now, c.memory_ttl) }
          else stA
        let stC :=
          if c.enable_redis then
            { stB with
              redisStore :=
                astore stB.redisStore full_key ⟨e.data, min e.ttl 86400⟩ }
          else stB
        (some e.data, stC)
      else
        cacheMiss { st with fileStore := aerase st.fileStore (filePath full_key) }
    | none => cacheMiss st
  else cacheMiss st

/-- The remote-tier probe of `UnifiedCache.get` (lines 151-167): on a hit
the value is copied into the memory tier at `memory_ttl` (lines 160-162). -/
def UnifiedCache.getL2 {V : Type} (c : UnifiedCache) (st : CacheState V)
    (now : ℚ) (full_key : String) : Option V × CacheState V :=
  if c.enable_redis then
    match st.redisStore.lookup full_key with
    | some entry =>
      let stA := { st with stats := { st.stats with
          redis_hits := st.stats.redis_hits + 1 } }
      let stB :=
        if c.enable_memory then
          { stA with
            memory_cache :=
              astore stA.memory_cache full_key (entry.value, now, c.memory_ttl) }
        else stA
      (some entry.value, stB)
    | none => c.getL3 st now full_key
  else c.getL3 st now full_key

/-- `UnifiedCache.get` (lines 125-210): probe memory, then remote, then
file; an expired memory entry is deleted before falling through
(lines 147-149). -/
def UnifiedCache.get {V : Type} (c : UnifiedCache) (st : CacheState V)
    (now : ℚ) (key ns : String) : Option V × CacheState V :=
  let full_key := make_key key ns
  if c.enable_memory then
    match st.memory_cache.lookup full_key with
    | some (data, timestamp, ttl) =>
      if now - timestamp < (ttl : ℚ) then
        (some data, { st with stats := { st.stats with
            memory_hits := st.stats.memory_hits + 1 } })
      else
        c.getL2 { st with memory_cache := aerase st.memory_cache full_key }
          now full_key
    | none => c.getL2 st now full_key
  else c.getL2 st now full_key

/-- An empty cache state. -/
def CacheState.empty (V : Type) : CacheState V :=
  ⟨[], [], [], ⟨0, 0, 0, 0, 0⟩⟩

/-- The TTL the file tier records when `set` is called with the given
requested `ttl` (all tiers enabled, nothing skipped, empty initial state,
key `"k"`, no namespace). -/
def fileStoredTtl (ttl : Int) : Int :=
  match ((UnifiedCache.init true true true).set (CacheState.empty Unit) 0 "k"
      () ttl "" false false false).fileStore.lookup (filePath "k") with
  | some e => e.ttl
  | none => 0

/-- A freshly constructed breaker run through `k` failing calls at times
`τ 1, …, τ k`. -/
def failRun (N : ℕ) (R : ℚ) (nm : String) (τ : ℕ → ℚ) (k : ℕ) : CircuitBreaker :=
  runFails (CircuitBreaker.mk0 (N : Int) R nm) τ k

/-! ## Helper lemmas: circuit breaker -/

lemma call_open_rejects {α ε : Type} (cb : CircuitBreaker) (tf now : ℚ)
    (hs : cb.state = .OPEN) (hl : cb.last_failure_time = some tf)
    (h : now - tf < cb.recovery_timeout) (fn : FnResult α ε) :
    (cb.call now fn).result = .circuitBreakerError ∧
    (cb.call now fn).invoked = false := by
  have hna : ¬(now - tf ≥ cb.recovery_timeout) := not_le.mpr h
  simp [CircuitBreaker.call, CircuitBreaker.shouldAttemptReset, hs, hl, hna]

lemma call_fail_closed (cb : CircuitBreaker) (hs : cb.state = .CLOSED)
    (now : ℚ) :
    (cb.call now failFn).breaker.failure_threshold = cb.failure_threshold ∧
    (cb.call now failFn).breaker.recovery_timeout = cb.recovery_timeout ∧
    (cb.call now failFn).breaker.failure_count = cb.failure_count + 1 ∧
    (cb.call now failFn).breaker.last_failure_time = some now ∧
    (cb.call now failFn).breaker.state =
      (if cb.failure_count + 1 ≥ cb.failure_threshold then CircuitState.OPEN
        else .CLOSED) := by
  simp only [CircuitBreaker.call, CircuitBreaker.runFn, CircuitBreaker.onFailure,
    failFn, hs]
  split <;> simp_all
  split <;> simp_all

lemma failRun_invariant (N : ℕ) (hN : 1 ≤ N) (R : ℚ) (nm : String)
    (τ : ℕ → ℚ) :
    ∀ k : ℕ, k ≤ N →
      (failRun N R nm τ k).failure_threshold = (N : Int) ∧
      (failRun N R nm τ k).recovery_timeout = R ∧
      (failRun N R nm τ k).failure_count = (k : Int) ∧
      (k < N → (failRun N R nm τ k).state = .CLOSED) ∧
      (k = N → (failRun N R nm τ k).state = .OPEN) ∧
      (1 ≤ k → (failRun N R nm τ k).last_failure_time = some (τ k)) := by
  intro k
  induction k with
  | zero =>
    intro _
    exact ⟨rfl, rfl, rfl, fun _ => rfl, fun h0 => absurd h0.symm (by omega),
      fun h1 => absurd h1 (by omega)⟩
  | succ k ih =>
    intro hk
    obtain ⟨hth, hR, hfc, hclosed, _, _⟩ := ih (by omega)
    have hst := hclosed (by omega)
    have hstep := call_fail_closed (failRun N R nm τ k) hst (τ (k + 1))
    have hrw : failRun N R nm τ (k + 1)
        = ((failRun N R nm τ k).call (τ (k + 1)) failFn).breaker := rfl
    obtain ⟨s1, s2, s3, s4, s5⟩ := hstep
    refine ⟨by rw [hrw, s1, hth], by rw [hrw, s2, hR],
      by rw [hrw, s3, hfc]; push_cast; ring, ?_, ?_, fun _ => by rw [hrw, s4]⟩
    · intro hlt
      rw [hrw, s5, hfc, hth]
      have : ¬((k : Int) + 1 ≥ (N : Int)) := by omega
      simp [this]
    · intro heq
      rw [hrw, s5, hfc, hth]
      have : (k : Int) + 1 ≥ (N : Int) := by omega
      simp [this]

/-! ## Claim theorems: circuit breaker -/

/-- C1: for every `failure_threshold = N ≥ 1`, a breaker starting CLOSED with
`failure_count = 0` is still CLOSED after `N - 1` consecutive failed calls,
transitions to OPEN on the `N`-th, and the `(N+1)`-th call, made while
`now - last_failure_time < recovery_timeout`, raises `CircuitBreakerError`
without invoking the wrapped function. -/
theorem breaker_threshold_trip (N : ℕ) (hN : 1 ≤ N) (R : ℚ) (nm : String)
    (τ : ℕ → ℚ) {α ε : Type} (t : ℚ) (fn : FnResult α ε)
    (ht : t - τ N < R) :
    (failRun N R nm τ (N - 1)).state = .CLOSED ∧
    (failRun N R nm τ N).state = .OPEN ∧
    ((failRun N R nm τ N).call t fn).result = .circuitBreakerError ∧
    ((failRun N R nm τ N).call t fn).invoked = false := by
  obtain ⟨_, _, _, hc, _, _⟩ := failRun_invariant N hN R nm τ (N - 1) (by omega)
  obtain ⟨_, hR, _, _, ho, hl⟩ := failRun_invariant N hN R nm τ N le_rfl
  have hrej := call_open_rejects (failRun N R nm τ N) (τ N) t (ho rfl) (hl hN)
    (by rw [hR]; exact ht) fn
  exact ⟨hc (by omega), ho rfl, hrej.1, hrej.2⟩

/-- Witness for C1 at `N = 2`, `R = 10`, call times `1, 2`, rejected call at
`t = 3`. -/
theorem breaker_threshold_trip_witness :
    (failRun 2 10 "w" (fun k => (k : ℚ)) 1).state = .CLOSED ∧
    (failRun 2 10 "w" (fun k => (k : ℚ)) 2).state = .OPEN ∧
    ((failRun 2 10 "w" (fun k => (k : ℚ)) 2).call 3 failFn).result
      = .circuitBreakerError ∧
    ((failRun 2 10 "w" (fun k => (k : ℚ)) 2).call 3 failFn).invoked = false :=
  breaker_threshold_trip 2 (by norm_num) 10 "w" (fun k => (k : ℚ)) 3 failFn
    (by norm_num)

/-- C2: while OPEN with `now - last_failure_time < recovery_timeout` every
call is rejected with `CircuitBreakerError` and the wrapped function is not
invoked; a call at `now2` with `now2 - last_failure_time ≥ recovery_timeout`
transitions the breaker to HALF_OPEN (an `(OPEN, HALF_OPEN)` record is
appended to `state_changes`) and that same call invokes the wrapped
function as the probe. -/
theorem breaker_open_gate {α ε : Type} (cb : CircuitBreaker) (tf now now2 : ℚ)
    (hs : cb.state = .OPEN) (hl : cb.last_failure_time = some tf)
    (h1 : now - tf < cb.recovery_timeout)
    (h2 : now2 - tf ≥ cb.recovery_timeout) (fn fn2 : FnResult α ε) :
    ((cb.call now fn).result = .circuitBreakerError ∧
      (cb.call now fn).invoked = false) ∧
    ((cb.call now2 fn2).invoked = true ∧
      ∃ rest, (cb.call now2 fn2).breaker.stats.state_changes =
        cb.stats.state_changes
          ++ (CircuitState.OPEN, CircuitState.HALF_OPEN) :: rest) := by
  refine ⟨call_open_rejects cb tf now hs hl h1 fn, ?_, ?_⟩
  · rcases fn2 with v | ⟨e, b⟩ <;> [skip; rcases b with _ | _] <;>
      simp [CircuitBreaker.call, CircuitBreaker.shouldAttemptReset,
        CircuitBreaker.transitionToHalfOpen, CircuitBreaker.runFn, hs, hl, h2]
  · rcases fn2 with v | ⟨e, b⟩
    · exact ⟨[(.HALF_OPEN, .CLOSED)], by
        simp [CircuitBreaker.call, CircuitBreaker.shouldAttemptReset,
          CircuitBreaker.transitionToHalfOpen, CircuitBreaker.runFn,
          CircuitBreaker.onSuccess, hs, hl, h2]⟩
    · rcases b with _ | _
      · exact ⟨[], by
          simp [CircuitBreaker.call, CircuitBreaker.shouldAttemptReset,
            CircuitBreaker.transitionToHalfOpen, CircuitBreaker.runFn, hs, hl,
            h2]⟩
      · exact ⟨[(.HALF_OPEN, .OPEN)], by
          simp [CircuitBreaker.call, CircuitBreaker.shouldAttemptReset,
            CircuitBreaker.transitionToHalfOpen, CircuitBreaker.runFn,
            CircuitBreaker.onFailure, hs, hl, h2]⟩

/-- A sample breaker sitting OPEN since time `0` with
`recovery_timeout = 10`. -/
def cbOpenAt0 : CircuitBreaker :=
  { CircuitBreaker.mk0 3 10 "w" with
    state := .OPEN
    failure_count := 3
    last_failure_time := some 0 }

/-- Witness for C2: rejected at `now = 5`, probed at `now2 = 12`. -/
theorem breaker_open_gate_witness :
    ((cbOpenAt0.call 5 failFn).result = .circuitBreakerError ∧
      (cbOpenAt0.call 5 failFn).invoked = false) ∧
    ((cbOpenAt0.call 12 failFn).invoked = true ∧
      ∃ rest, (cbOpenAt0.call 12 failFn).breaker.stats.state_changes =
        cbOpenAt0.stats.state_changes
          ++ (CircuitState.OPEN, CircuitState.HALF_OPEN) :: rest) :=
  breaker_open_gate cbOpenAt0 0 5 12 rfl rfl
    (by norm_num [cbOpenAt0, CircuitBreaker.mk0])
    (by norm_num [cbOpenAt0, CircuitBreaker.mk0]) failFn failFn

/-- C3: from HALF_OPEN, a successful probe call transitions the breaker to
CLOSED with `failure_count = 0`; a failing probe call (expected exception)
transitions it back to OPEN and records the call time as the new
`last_failure_time` — for every `failure_count`/`failure_threshold`, a
single failure suffices. -/
theorem breaker_half_open_probe {α ε : Type} (cb : CircuitBreaker)
    (hs : cb.state = .HALF_OPEN) (now : ℚ) (v : α) (e : ε) :
    ((cb.call now (FnResult.success (ε := ε) v)).breaker.state = .CLOSED ∧
      (cb.call now (FnResult.success (ε := ε) v)).breaker.failure_count = 0) ∧
    ((cb.call now (FnResult.raises (α := α) e true)).breaker.state = .OPEN ∧
      (cb.call now (FnResult.raises (α := α) e true)).breaker.last_failure_time
        = some now) := by
  refine ⟨⟨?_, ?_⟩, ?_, ?_⟩ <;>
    simp [CircuitBreaker.call, CircuitBreaker.runFn, CircuitBreaker.onSuccess,
      CircuitBreaker.onFailure, hs]

/-- A sample breaker in its HALF_OPEN probing state. -/
def cbHalf : CircuitBreaker :=
  { CircuitBreaker.mk0 3 10 "w" with
    state := .HALF_OPEN
    failure_count := 3
    last_failure_time := some 0 }

/-- Witness for C3 on `cbHalf` at `now = 11`. -/
theorem breaker_half_open_probe_witness :
    ((cbHalf.call 11 (FnResult.success (ε := Unit) ())).breaker.state
        = .CLOSED ∧
      (cbHalf.call 11 (FnResult.success (ε := Unit) ())).breaker.failure_count
        = 0) ∧
    ((cbHalf.call 11 (FnResult.raises (α := Unit) () true)).breaker.state
        = .OPEN ∧
      (cbHalf.call 11
          (FnResult.raises (α := Unit) () true)).breaker.last_failure_time
        = some 11) :=
  breaker_half_open_probe cbHalf rfl 11 () ()

/-- C9: a successful call made while CLOSED sets `failure_count` to
`max 0 (failure_count - 1)`. -/
theorem breaker_success_decays {α ε : Type} (cb : CircuitBreaker)
    (hs : cb.state = .CLOSED) (now : ℚ) (v : α) :
    (cb.call now (FnResult.success (ε := ε) v)).breaker.failure_count
      = max 0 (cb.failure_count - 1) := by
  simp [CircuitBreaker.call, CircuitBreaker.runFn, CircuitBreaker.onSuccess, hs]

/-- A sample CLOSED breaker carrying some failure history. -/
def cbClosed3 : CircuitBreaker :=
  { CircuitBreaker.mk0 5 60 "w" with failure_count := 3 }

/-- Witness for C9 on `cbClosed3`: `failure_count` goes from 3 to 2. -/
theorem breaker_success_decays_witness :
    (cbClosed3.call 0 (FnResult.success (ε := Unit) ())).breaker.failure_count
      = max 0 (cbClosed3.failure_count - 1) :=
  breaker_success_decays cbClosed3 rfl 0 ()

/-- C10: `reset` forces CLOSED, zero `failure_count` and no
`last_failure_time`, and leaves every statistics counter and every
configuration field unchanged. -/
theorem breaker_reset_frame (cb : CircuitBreaker) :
    cb.reset.state = .CLOSED ∧ cb.reset.failure_count = 0 ∧
    cb.reset.last_failure_time = none ∧ cb.reset.stats = cb.stats ∧
    cb.reset.failure_threshold = cb.failure_threshold ∧
    cb.reset.recovery_timeout = cb.recovery_timeout ∧
    cb.reset.name = cb.name :=
  ⟨rfl, rfl, rfl, rfl, rfl, rfl, rfl⟩

/-- A freshly constructed breaker (CLOSED, no history). -/
def cbFresh : CircuitBreaker := CircuitBreaker.mk0 5 60 "cx"

/-- C7 counterexample: `cbFresh.call` invokes a wrapped function that raises
an exception which is not an instance of the breaker's
`expected_exception`; the exception is re-raised, yet `failed_requests`
stays 0 and the failure-transition logic does not run (`failure_count`
stays 0, `last_failure_time` stays `none`), contradicting the claim that
every raised exception increments `failed_requests` and runs the failure
logic. -/
theorem breaker_unexpected_not_counted :
    (cbFresh.call 0 (FnResult.raises (α := Unit) () false)).invoked = true ∧
    (cbFresh.call 0 (FnResult.raises (α := Unit) () false)).result
      = .reraised () ∧
    cbFresh.stats.failed_requests = 0 ∧
    (cbFresh.call 0
        (FnResult.raises (α := Unit) () false)).breaker.stats.failed_requests
      = 0 ∧
    (cbFresh.call 0
        (FnResult.raises (α := Unit) () false)).breaker.failure_count = 0 ∧
    (cbFresh.call 0
        (FnResult.raises (α := Unit) () false)).breaker.last_failure_time
      = none :=
  ⟨rfl, rfl, rfl, rfl, rfl, rfl⟩

/-- C7 (amended): whenever `call` invokes the wrapped function and it raises
an exception, the same exception is re-raised unchanged; if the exception
matches the breaker's `expected_exception` type, `failed_requests` is
incremented and the failure-transition logic runs (`failure_count`
incremented, `last_failure_time` set to the call time); a non-matching
exception propagates with no failure bookkeeping. -/
theorem breaker_propagates_exceptions {α ε : Type} (cb : CircuitBreaker)
    (now : ℚ) (e : ε) (ex : Bool)
    (hinv : (cb.call now (FnResult.raises (α := α) e ex)).invoked = true) :
    (cb.call now (FnResult.raises (α := α) e ex)).result = .reraised e ∧
    (ex = true →
      (cb.call now
          (FnResult.raises (α := α) e ex)).breaker.stats.failed_requests
        = cb.stats.failed_requests + 1 ∧
      (cb.call now (FnResult.raises (α := α) e ex)).breaker.failure_count
        = cb.failure_count + 1 ∧
      (cb.call now (FnResult.raises (α := α) e ex)).breaker.last_failure_time
        = some now) ∧
    (ex = false →
      (cb.call now
          (FnResult.raises (α := α) e ex)).breaker.stats.failed_requests
        = cb.stats.failed_requests ∧
      (cb.call now (FnResult.raises (α := α) e ex)).breaker.failure_count
        = cb.failure_count ∧
      (cb.call now (FnResult.raises (α := α) e ex)).breaker.last_failure_time
        = cb.last_failure_time) := by
  by_cases hs : cb.state = .OPEN
  · by_cases hr : cb.shouldAttemptReset now = true
    · rcases ex with _ | _ <;>
        simp [CircuitBreaker.call, CircuitBreaker.runFn,
          CircuitBreaker.transitionToHalfOpen, CircuitBreaker.onFailure, hs, hr]
    · rw [Bool.not_eq_true] at hr
      simp [CircuitBreaker.call, hs, hr] at hinv
  · rcases ex with _ | _ <;>
      · simp [CircuitBreaker.call, CircuitBreaker.runFn,
          CircuitBreaker.onFailure, hs]
        try split_ifs <;> simp

/-- Witness for C7 on `cbFresh` with a matching exception at `now = 0`. -/
theorem breaker_propagates_exceptions_witness :
    (cbFresh.call 0 (FnResult.raises (α := Unit) () true)).result
      = .reraised () ∧
    (true = true →
      (cbFresh.call 0
          (FnResult.raises (α := Unit) () true)).breaker.stats.failed_requests
        = cbFresh.stats.failed_requests + 1 ∧
      (cbFresh.call 0
          (FnResult.raises (α := Unit) () true)).breaker.failure_count
        = cbFresh.failure_count + 1 ∧
      (cbFresh.call 0
          (FnResult.raises (α := Unit) () true)).breaker.last_failure_time
        = some 0) ∧
    (true = false →
      (cbFresh.call 0
          (FnResult.raises (α := Unit) () true)).breaker.stats.failed_requests
        = cbFresh.stats.failed_requests ∧
      (cbFresh.call 0
          (FnResult.raises (α := Unit) () true)).breaker.failure_count
        = cbFresh.failure_count ∧
      (cbFresh.call 0
          (FnResult.raises (α := Unit) () true)).breaker.last_failure_time
        = cbFresh.last_failure_time) :=
  breaker_propagates_exceptions cbFresh 0 () true rfl

/-! ## Claim theorems: rate limiter -/

lemma zadd_not_mem (entries : List (String × ℚ)) (m : String) (sc : ℚ)
    (h : ∀ p ∈ entries, p.1 ≠ m) : zadd entries m sc = entries ++ [(m, sc)] := by
  unfold zadd
  have ha : entries.any (fun e => e.1 == m) = false := by
    rw [List.any_eq_false]
    intro p hp
    simpa using h p hp
  simp [ha]

/-- The limiter configuration of the budget scenario: `max_requests = 1`,
`window_seconds = 2`. -/
def limiter1 : RedisRateLimiter := ⟨"rate_limit", 1, 2⟩

lemma acquire_grant (L : RedisRateLimiter) (s : ZSetKey)
    (now start_time timeout : ℚ) (rid : String) (blocking : Bool)
    (h : ((L.pruneWindow s.entries now).length : Int) < L.max_requests)
    (hf : ∀ p ∈ L.pruneWindow s.entries now, p.1 ≠ rid) :
    L.acquireAttempt (.up s) now start_time rid blocking timeout =
      (some true, .up ⟨L.pruneWindow s.entries now ++ [(rid, now)],
        some (Int.floor (L.window_seconds * 2))⟩) := by
  simp [RedisRateLimiter.acquireAttempt, h, zadd_not_mem _ _ _ hf]

lemma acquire_reject (L : RedisRateLimiter) (s : ZSetKey)
    (now start_time timeout : ℚ) (rid : String)
    (h : ((L.pruneWindow s.entries now).length : Int) ≥ L.max_requests) :
    L.acquireAttempt (.up s) now start_time rid false timeout =
      (some false, .up ⟨L.pruneWindow s.entries now, s.expirySeconds⟩) := by
  have hn : ¬(((L.pruneWindow s.entries now).length : Int) < L.max_requests) :=
    not_lt.mpr h
  simp [RedisRateLimiter.acquireAttempt, hn]

/-- C4: on a reachable store, one `acquire` iteration first prunes the
window; if the remaining count is below `max_requests` a fresh entry is
added at the current timestamp, the key expiry becomes
`int(window_seconds * 2)` and the call returns true; if the count has
reached `max_requests` and `blocking` is false it returns false at once.
In particular with `max_requests = 1, window_seconds = 2`, two back-to-back
non-blocking acquires on a fresh identifier return true then false. -/
theorem limiter_acquire_budget (L : RedisRateLimiter) (s : ZSetKey)
    (now start_time timeout : ℚ) (rid : String) (blocking : Bool) :
    (((L.pruneWindow s.entries now).length : Int) < L.max_requests →
      (∀ p ∈ L.pruneWindow s.entries now, p.1 ≠ rid) →
      L.acquireAttempt (.up s) now start_time rid blocking timeout =
        (some true, .up ⟨L.pruneWindow s.entries now ++ [(rid, now)],
          some (Int.floor (L.window_seconds * 2))⟩)) ∧
    (((L.pruneWindow s.entries now).length : Int) ≥ L.max_requests →
      L.acquireAttempt (.up s) now start_time rid false timeout =
        (some false, .up ⟨L.pruneWindow s.entries now, s.expirySeconds⟩)) ∧
    ((limiter1.acquireAttempt (.up ⟨[], none⟩) 0 0 "r1" false 30).1
        = some true ∧
      (limiter1.acquireAttempt
          (limiter1.acquireAttempt (.up ⟨[], none⟩) 0 0 "r1" false 30).2
          1 1 "r2" false 30).1 = some false) := by
  have hkeep : limiter1.pruneWindow [("r1", (0 : ℚ))] 1 = [("r1", (0 : ℚ))] := by
    have e2 : ¬((0 : ℚ) ≤ 1 - 2) := by norm_num
    simp [RedisRateLimiter.pruneWindow, limiter1, e2]
  refine ⟨acquire_grant L s now start_time timeout rid blocking,
    acquire_reject L s now start_time timeout rid, ?_, ?_⟩
  · rw [acquire_grant limiter1 ⟨[], none⟩ 0 0 30 "r1" false
      (by simp [RedisRateLimiter.pruneWindow, limiter1])
      (by simp [RedisRateLimiter.pruneWindow])]
  · rw [acquire_grant limiter1 ⟨[], none⟩ 0 0 30 "r1" false
      (by simp [RedisRateLimiter.pruneWindow, limiter1])
      (by simp [RedisRateLimiter.pruneWindow])]
    have hprune0 : limiter1.pruneWindow ([] : List (String × ℚ)) 0 = [] := by
      simp [RedisRateLimiter.pruneWindow]
    rw [hprune0, List.nil_append]
    rw [acquire_reject limiter1
      ⟨[("r1", (0 : ℚ))], some (Int.floor (limiter1.window_seconds * 2))⟩
      1 1 30 "r2" (by rw [hkeep]; simp [limiter1])]

/-- Witness for C4: the two-acquire budget scenario evaluated through the
theorem's two grant/reject branches. -/
theorem limiter_acquire_budget_witness :
    limiter1.acquireAttempt (.up ⟨[], none⟩) 0 0 "r1" false 30 =
      (some true, .up ⟨[("r1", 0)], some 4⟩) ∧
    limiter1.acquireAttempt (.up ⟨[("r1", 0)], some 4⟩) 1 1 "r2" false 30 =
      (some false, .up ⟨[("r1", 0)], some 4⟩) := by
  constructor
  · have h := (limiter_acquire_budget limiter1 ⟨[], none⟩ 0 0 30 "r1"
      false).1 (by simp [RedisRateLimiter.pruneWindow, limiter1])
      (by simp [RedisRateLimiter.pruneWindow])
    rw [h]
    have hfl : Int.floor ((2 : ℚ) * 2) = 4 := by norm_num
    simp [RedisRateLimiter.pruneWindow, limiter1, hfl]
  · have e2 : ¬((0 : ℚ) ≤ 1 - 2) := by norm_num
    have hkeep : limiter1.pruneWindow [("r1", (0 : ℚ))] 1 = [("r1", (0 : ℚ))] := by
      simp [RedisRateLimiter.pruneWindow, limiter1, e2]
    have h := (limiter_acquire_budget limiter1 ⟨[("r1", 0)], some 4⟩ 1 1 30
      "r2" false).2.1 (by rw [hkeep]; simp [limiter1])
    rw [h, hkeep]

/-- C8: any store error during `acquire` is fail-open: the call returns true
immediately, for every configuration, identifier, blocking mode and
timeout. -/
theorem limiter_fail_open (L : RedisRateLimiter)
    (now start_time timeout : ℚ) (rid : String) (blocking : Bool) :
    L.acquireAttempt .down now start_time rid blocking timeout
      = (some true, .down) := rfl

/-! ## Claim theorems: unified cache -/

lemma astore_lookup_self {β : Type} (l : List (String × β)) (k : String)
    (v : β) : List.lookup k (astore l k v) = some v := by
  simp [astore, List.lookup]

lemma set_memory_cache {V : Type} (c : UnifiedCache) (st : CacheState V)
    (now : ℚ) (key : String) (v : V) (ttl : Int) (ns : String)
    (sm sr sf : Bool) :
    (c.set st now key v ttl ns sm sr sf).memory_cache =
      if c.enable_memory && !sm then
        astore st.memory_cache (make_key key ns) (v, now, min ttl c.memory_ttl)
      else st.memory_cache := by
  simp only [UnifiedCache.set, apply_ite (CacheState.memory_cache)]
  split <;> split <;> rfl

lemma set_redisStore {V : Type} (c : UnifiedCache) (st : CacheState V)
    (now : ℚ) (key : String) (v : V) (ttl : Int) (ns : String)
    (sm sr sf : Bool) :
    (c.set st now key v ttl ns sm sr sf).redisStore =
      if c.enable_redis && !sr then
        astore st.redisStore (make_key key ns) ⟨v, min ttl 86400⟩
      else st.redisStore := by
  simp only [UnifiedCache.set, apply_ite (CacheState.redisStore)]
  split <;> split <;> split <;> rfl

lemma set_fileStore {V : Type} (c : UnifiedCache) (st : CacheState V)
    (now : ℚ) (key : String) (v : V) (ttl : Int) (ns : String)
    (sm sr sf : Bool) :
    (c.set st now key v ttl ns sm sr sf).fileStore =
      if c.enable_file && !sf then
        astore st.fileStore (filePath (make_key key ns)) ⟨v, now, ttl⟩
      else st.fileStore := by
  simp only [UnifiedCache.set, apply_ite (CacheState.fileStore)]
  split <;> split <;> split <;> rfl

lemma fileStoredTtl_eval (t : Int) : fileStoredTtl t = t := rfl

/-- C5 counterexample: the file tier has no TTL ceiling — there is no cap
such that the stored file-tier TTL is `min ttl cap` for every requested
`ttl ≥ 0` (`set` pickles the requested `ttl` unchanged), refuting the claim
that the file tier clamps the requested TTL to a ceiling of its own. -/
theorem cache_set_file_ttl_unclamped :
    ¬ ∃ cap : Int, ∀ ttl : Int, 0 ≤ ttl → fileStoredTtl ttl = min ttl cap := by
  rintro ⟨cap, h⟩
  have h1 := h (max cap 0 + 1) (by omega)
  rw [fileStoredTtl_eval] at h1
  omega

/-- C5 (amended): `set` writes the value to every enabled, non-skipped tier;
the memory tier stores it with `min ttl 300`, the remote tier with
`min ttl 86400`, and the file tier with the requested `ttl` unchanged (no
ceiling of its own). -/
theorem cache_set_tiers {V : Type} (em er ef : Bool) (st : CacheState V)
    (now : ℚ) (key : String) (v : V) (ttl : Int) (ns : String)
    (sm sr sf : Bool) :
    (em = true → sm = false →
      ((UnifiedCache.init em er ef).set st now key v ttl ns sm sr
          sf).memory_cache.lookup (make_key key ns)
        = some (v, now, min ttl 300)) ∧
    (er = true → sr = false →
      ((UnifiedCache.init em er ef).set st now key v ttl ns sm sr
          sf).redisStore.lookup (make_key key ns)
        = some ⟨v, min ttl 86400⟩) ∧
    (ef = true → sf = false →
      ((UnifiedCache.init em er ef).set st now key v ttl ns sm sr
          sf).fileStore.lookup (filePath (make_key key ns))
        = some ⟨v, now, ttl⟩) := by
  refine ⟨fun h1 h2 => ?_, fun h1 h2 => ?_, fun h1 h2 => ?_⟩
  · rw [set_memory_cache]
    simp [UnifiedCache.init, h1, h2, astore_lookup_self]
  · rw [set_redisStore]
    simp [UnifiedCache.init, h1, h2, astore_lookup_self]
  · rw [set_fileStore]
    simp [UnifiedCache.init, h1, h2, astore_lookup_self]

/-- Witness for C5 (amended): all tiers enabled, nothing skipped,
`ttl = 100000`: memory stores `min 100000 300`, remote `min 100000 86400`,
file the raw `100000`. -/
theorem cache_set_tiers_witness :
    ((UnifiedCache.init true true true).set (CacheState.empty Int) 0 "k" 7
        100000 "" false false false).memory_cache.lookup (make_key "k" "")
      = some (7, 0, min 100000 300) ∧
    ((UnifiedCache.init true true true).set (CacheState.empty Int) 0 "k" 7
        100000 "" false false false).redisStore.lookup (make_key "k" "")
      = some ⟨7, min 100000 86400⟩ ∧
    ((UnifiedCache.init true true true).set (CacheState.empty Int) 0 "k" 7
        100000 "" false false false).fileStore.lookup (filePath (make_key "k" ""))
      = some ⟨7, 0, 100000⟩ :=
  ⟨(cache_set_tiers true true true (CacheState.empty Int) 0 "k" 7 100000 ""
      false false false).1 rfl rfl,
    (cache_set_tiers true true true (CacheState.empty Int) 0 "k" 7 100000 ""
      false false false).2.1 rfl rfl,
    (cache_set_tiers true true true (CacheState.empty Int) 0 "k" 7 100000 ""
      false false false).2.2 rfl rfl⟩

/-- C6: with all tiers enabled, a `get` whose memory probe misses (no live
memory entry), whose remote probe misses, and which finds a non-expired
entry in the file tier, returns the entry's value and promotes it into both
faster tiers: into memory at the memory ceiling 300 and into the remote
tier at `min ttl 86400`. -/
theorem cache_get_file_promotes {V : Type} (st : CacheState V) (now : ℚ)
    (key ns : String) (e : FileEntry V)
    (hm : ∀ d ts tl,
      st.memory_cache.lookup (make_key key ns) = some (d, ts, tl) →
        now - ts ≥ (tl : ℚ))
    (hr : st.redisStore.lookup (make_key key ns) = none)
    (hf : st.fileStore.lookup (filePath (make_key key ns)) = some e)
    (hl : now - e.timestamp < (e.ttl : ℚ)) :
    ((UnifiedCache.init true true true).get st now key ns).1 = some e.data ∧
    ((UnifiedCache.init true true true).get st now key
        ns).2.memory_cache.lookup (make_key key ns)
      = some (e.data, now, 300) ∧
    ((UnifiedCache.init true true true).get st now key
        ns).2.redisStore.lookup (make_key key ns)
      = some ⟨e.data, min e.ttl 86400⟩ := by
  cases hc : st.memory_cache.lookup (make_key key ns) with
  | none =>
    simp [UnifiedCache.get, UnifiedCache.getL2, UnifiedCache.getL3,
      UnifiedCache.init, hc, hr, hf, hl, astore_lookup_self, cacheMiss]
  | some trip =>
    obtain ⟨d, ts, tl⟩ := trip
    have hexp : ¬(now - ts < (tl : ℚ)) := not_lt.mpr (hm d ts tl hc)
    simp [UnifiedCache.get, UnifiedCache.getL2, UnifiedCache.getL3,
      UnifiedCache.init, hc, hexp, hr, hf, hl, astore_lookup_self, aerase,
      cacheMiss]

/-- Witness for C6: a state holding only the file entry
`(42, timestamp 0, ttl 100)` under key `"n:k"`, read at `now = 5`. -/
theorem cache_get_file_promotes_witness :
    ((UnifiedCache.init true true true).get
        (⟨[], [], [("cache_n_k.pkl", ⟨42, 0, 100⟩)], ⟨0, 0, 0, 0, 0⟩⟩ :
          CacheState Int) 5 "k" "n").1 = some 42 ∧
    ((UnifiedCache.init true true true).get
        (⟨[], [], [("cache_n_k.pkl", ⟨42, 0, 100⟩)], ⟨0, 0, 0, 0, 0⟩⟩ :
          CacheState Int) 5 "k" "n").2.memory_cache.lookup (make_key "k" "n")
      = some (42, 5, 300) ∧
    ((UnifiedCache.init true true true).get
        (⟨[], [], [("cache_n_k.pkl", ⟨42, 0, 100⟩)], ⟨0, 0, 0, 0, 0⟩⟩ :
          CacheState Int) 5 "k" "n").2.redisStore.lookup (make_key "k" "n")
      = some ⟨42, min 100 86400⟩ :=
  cache_get_file_promotes
    (⟨[], [], [("cache_n_k.pkl", ⟨42, 0, 100⟩)], ⟨0, 0, 0, 0, 0⟩⟩ :
      CacheState Int) 5 "k" "n" ⟨42, 0, 100⟩
    (by intro d ts tl h; simp at h) rfl rfl (by norm_num)

end NewPoizon
